import Mathlib

/-!
Shallow embedding of the request-building / response-normalization core of the
fusionauth-node-client repository:

* `ClientResponse` (lib/ClientResponse.js): the uniform response envelope and its
  `wasSuccessful` predicate.
* `RESTClient` (RESTClient.js): the fluent request builder — `header`,
  `authorization`, `setUrl`, `uri`, `urlSegment`, `urlParameter` — and the
  response/transport handling of `go`.
* `FusionAuthClient` (FusionAuthClient.js): the facade's scoping helpers
  `_start` / `_startAnonymous` and its generic promise completion handler
  `_responseHandler`.

Modelling conventions:

* JavaScript strings used as URLs and path segments are modelled as `List Char`
  (`Str`), so that character-level operations (`charAt`, concatenation) are
  explicit; header and parameter names/values are opaque Lean `String`s.
* A JavaScript value that may be `null` or `undefined` is modelled with the
  three-state `JsNullable` (the distinction matters: `RESTClient.uri` tests
  `typeof this.restUrl === 'undefined'` while the constructor initialises
  `restUrl` to `null`).
* A JavaScript object used as a dictionary is modelled as an insertion-ordered
  association list with in-place overwrite (`setProp`) and first-match read
  (`getProp`), matching property assignment and access.
* Operations that can throw a `TypeError` (member access on `null`/`undefined`)
  return `Except JsError _`.
* The asynchronous parts of `RESTClient.go` are modelled as explicit event
  processing: the `http.request` response callback records the status code and
  then the `data`/`error`/`exception` listeners fire in trace order
  (`runRespEvents`); the request-level `error` listener is `requestErrorPath`.
* `JSON.parse` is a platform primitive; the model is parameterised by an
  arbitrary parser `parse : Str → Option Int` (only parse success/failure and
  the parsed value matter to the claims), with `jsonParseInt` — a concrete
  parser for the integer fragment of JSON — used to evaluate concrete traces.
-/

namespace FANodeClient

/-- JavaScript strings manipulated character-wise (URLs, path segments). -/
abbrev Str := List Char

/-- A JavaScript value that may be `undefined`, `null`, or an actual value. -/
inductive JsNullable (α : Type) where
  | undef : JsNullable α
  | null : JsNullable α
  | val : α → JsNullable α
deriving DecidableEq

/-- Collapse `undefined`/`null` to `none`. -/
def JsNullable.toOption {α : Type} : JsNullable α → Option α
  | .undef => none
  | .null => none
  | .val a => some a

/-- The only JavaScript runtime error the embedded code can raise: a
`TypeError` from member access on `null`/`undefined`. -/
inductive JsError where
  | typeError : JsError
deriving DecidableEq

/-- JavaScript object property read: first (unique) matching key. -/
def getProp {β : Type} : List (String × β) → String → Option β
  | [], _ => none
  | (k, v) :: rest, name => if k = name then some v else getProp rest name

/-- JavaScript object property write: overwrite in place, else append
(insertion order preserved, as for JS object keys). -/
def setProp {β : Type} : List (String × β) → String → β → List (String × β)
  | [], name, v => [(name, v)]
  | (k, w) :: rest, name, v =>
      if k = name then (k, v) :: rest else (k, w) :: setProp rest name v

/-- The body stored into `successResponse`/`errorResponse`: either the value
produced by `JSON.parse` or the raw chunk when parsing threw. -/
inductive BodyVal where
  | json : Int → BodyVal
  | raw : Str → BodyVal
deriving DecidableEq

/-- lib/ClientResponse.js: the response envelope. `null` fields are `none`. -/
structure ClientResponse where
  statusCode : Option Int
  errorResponse : Option BodyVal
  successResponse : Option BodyVal
  exception : Option String
deriving DecidableEq

/-- `new ClientResponse()`: every field starts as `null`. -/
def newClientResponse : ClientResponse :=
  { statusCode := none, errorResponse := none, successResponse := none, exception := none }

/-- JavaScript `ToNumber` coercion applied to `statusCode` by the relational
operators in `wasSuccessful`: `null` coerces to `0`. -/
def jsToNumber : Option Int → Int
  | none => 0
  | some n => n

/-- `ClientResponse.wasSuccessful`:
`this.statusCode >= 200 && this.statusCode <= 299 && this.exception === null`. -/
def ClientResponse.wasSuccessful (cr : ClientResponse) : Bool :=
  decide (200 ≤ jsToNumber cr.statusCode) && decide (jsToNumber cr.statusCode ≤ 299)
    && decide (cr.exception = none)

/-- A scalar (string/number) or composite (array/object) query parameter value,
as distinguished by `typeof value === 'object'` in `RESTClient.urlParameter`. -/
inductive ParamValue where
  | scalar : String → ParamValue
  | composite : List String → ParamValue
deriving DecidableEq

/-- RESTClient.js constructor state. -/
structure RESTClient where
  headers : List (String × String)
  parameters : Option (List (String × List String))
  restUrl : JsNullable Str
  body : Option String
  certificate : Option String
  key : Option String
  method : Option String
deriving DecidableEq

/-- `new RESTClient()`: `headers = {}`, everything else `null`. -/
def newRESTClient : RESTClient :=
  { headers := [], parameters := none, restUrl := .null, body := none,
    certificate := none, key := none, method := none }

/-- `RESTClient.header(key, value)`: `this.headers[key] = value`. -/
def RESTClient.header (c : RESTClient) (k v : String) : RESTClient :=
  { c with headers := setProp c.headers k v }

/-- `RESTClient.authorization(key)`: `this.header('Authorization', key)`. -/
def RESTClient.authorization (c : RESTClient) (key : String) : RESTClient :=
  c.header "Authorization" key

/-- `RESTClient.setUrl(url)`: `this.restUrl = url`. -/
def RESTClient.setUrl (c : RESTClient) (u : Str) : RESTClient :=
  { c with restUrl := .val u }

/-- `RESTClient.uri(uri)`: guarded by
`if (uri === null || typeof this.restUrl === 'undefined') return this;`
then joins `this.restUrl` and `uri` avoiding a doubled `/` at the boundary.
When the guard passes but `this.restUrl` is `null` (the constructor's initial
value), `this.restUrl.charAt(...)` throws a `TypeError`; when `uri` is
`undefined`, `uri.charAt(0)` throws. -/
def RESTClient.uri (c : RESTClient) (u : JsNullable Str) : Except JsError RESTClient :=
  match u with
  | .null => .ok c
  | .undef =>
      match c.restUrl with
      | .undef => .ok c
      | .null => .error .typeError
      | .val _ => .error .typeError
  | .val s =>
      match c.restUrl with
      | .undef => .ok c
      | .null => .error .typeError
      | .val r =>
          if r.getLast? = some '/' ∧ s.head? = some '/' then
            .ok { c with restUrl := .val (r ++ s.tail) }
          else if r.getLast? ≠ some '/' ∧ s.head? ≠ some '/' then
            .ok { c with restUrl := .val (r ++ '/' :: s) }
          else
            .ok { c with restUrl := .val (r ++ s) }

/-- `RESTClient.urlSegment(segment)`: when `segment` is neither `null` nor
`undefined`, first appends `/` to `this.restUrl` unless its last character is
already `/` (`charAt` on the empty string yields `""`, which is not `'/'`),
then appends the segment. Accessing `charAt` with `restUrl` still
`null`/`undefined` throws a `TypeError`. -/
def RESTClient.urlSegment (c : RESTClient) (segment : JsNullable Str) :
    Except JsError RESTClient :=
  match segment with
  | .null => .ok c
  | .undef => .ok c
  | .val s =>
      match c.restUrl with
      | .null => .error .typeError
      | .undef => .error .typeError
      | .val r =>
          let r1 := if r.getLast? = some '/' then r else r ++ ['/']
          .ok { c with restUrl := .val (r1 ++ s) }

/-- `RESTClient.urlParameter(name, value)`: no-op for `null`/`undefined`
`value`; otherwise lazily initialises `this.parameters` to `{}`, initialises
`this.parameters[name]` to `[]` when absent, then pushes the scalar value (or
each element of a composite value, in order) onto the array. -/
def RESTClient.urlParameter (c : RESTClient) (name : String) (value : JsNullable ParamValue) :
    RESTClient :=
  match value with
  | .null => c
  | .undef => c
  | .val v =>
      let ps0 := c.parameters.getD []
      let ps1 := match getProp ps0 name with
        | none => setProp ps0 name []
        | some _ => ps0
      let cur := (getProp ps1 name).getD []
      let toPush := match v with
        | .scalar s => [s]
        | .composite vs => vs
      { c with parameters := some (setProp ps1 name (cur ++ toPush)) }

/-- `querystring.stringify` applied to the accumulated parameter object in
`RESTClient.go`: an array-valued property serializes as one repeated
`name=value` pair per element, properties in insertion order. Modelled as the
ordered list of `(name, value)` pairs of the final query string. -/
def stringifyPairs (ps : List (String × List String)) : List (String × String) :=
  (ps.map fun p => p.2.map fun v => (p.1, v)).flatten

/-- One event delivered to the response-stream listeners registered in
`RESTClient.go`: a `data` chunk, a stream `error`, or an `exception`. -/
inductive RespEvent where
  | dataEv : Str → RespEvent
  | errorEv : String → RespEvent
  | exceptionEv : String → RespEvent
deriving DecidableEq

/-- `let json = data; try { json = JSON.parse(data) } catch (err) {}`:
the parsed value when `JSON.parse` succeeds, the raw chunk otherwise. -/
def parseOrRaw (parse : Str → Option Int) (chunk : Str) : BodyVal :=
  match parse chunk with
  | some j => .json j
  | none => .raw chunk

/-- One step of the response listeners in `RESTClient.go`: a `data` chunk is
parsed-or-kept-raw and stored into `successResponse` when
`clientResponse.wasSuccessful()` currently holds, else into `errorResponse`;
`error`/`exception` events store into `clientResponse.exception`. -/
def respStep (parse : Str → Option Int) (cr : ClientResponse) : RespEvent → ClientResponse
  | .dataEv chunk =>
      let json := parseOrRaw parse chunk
      if cr.wasSuccessful then { cr with successResponse := some json }
      else { cr with errorResponse := some json }
  | .errorEv e => { cr with exception := some e }
  | .exceptionEv e => { cr with exception := some e }

/-- The response listeners of `RESTClient.go` applied to a trace of events. -/
def runRespEvents (parse : Str → Option Int) (cr : ClientResponse) :
    List RespEvent → ClientResponse
  | [] => cr
  | ev :: rest => runRespEvents parse (respStep parse cr ev) rest

/-- The response path of `RESTClient.go`: the `http.request` callback records
`response.statusCode` into the fresh envelope, then the registered listeners
process the stream's events; the `end` listener hands the envelope to the
response handler. `goResponse` is the envelope at that point. -/
def goResponse (parse : Str → Option Int) (status : Int) (events : List RespEvent) :
    ClientResponse :=
  runRespEvents parse { newClientResponse with statusCode := some status } events

/-- The request-level `error` listener of `RESTClient.go`:
`clientResponse.statusCode = 500; clientResponse.exception = error;` applied to
the fresh envelope of a call that received no response at all. -/
def requestErrorEnvelope (e : String) : ClientResponse :=
  { newClientResponse with statusCode := some 500, exception := some e }

/-- The full request-level `error` path of `RESTClient.go`: populate the
envelope, then invoke the response handler with it. -/
def requestErrorPath {α : Type} (responseHandler : ClientResponse → α) (e : String) : α :=
  responseHandler (requestErrorEnvelope e)

/-- FusionAuthClient.js facade state: `apiKey` and `host` from the
constructor, `tenantId` initially `null`, mutable via `setTenantId`. -/
structure FusionAuthClient where
  apiKey : String
  host : Str
  tenantId : JsNullable String
deriving DecidableEq

/-- `FusionAuthClient._responseHandler(resolve, reject)`: the returned
completion function resolves with the envelope when `wasSuccessful()`, else
rejects with the same envelope. -/
def FusionAuthClient.responseHandler {α : Type} (resolve reject : ClientResponse → α)
    (response : ClientResponse) : α :=
  if response.wasSuccessful then resolve response else reject response

/-- `FusionAuthClient._startAnonymous()`: a fresh `RESTClient` with
`setUrl(this.host)`, plus the `X-FusionAuth-TenantId` header when
`this.tenantId !== null && typeof(this.tenantId) !== 'undefined'`. -/
def FusionAuthClient.startAnonymous (f : FusionAuthClient) : RESTClient :=
  let client := newRESTClient.setUrl f.host
  match f.tenantId with
  | .val t => client.header "X-FusionAuth-TenantId" t
  | _ => client

/-- `FusionAuthClient._start()`: `this._startAnonymous().authorization(this.apiKey)`. -/
def FusionAuthClient.start (f : FusionAuthClient) : RESTClient :=
  f.startAnonymous.authorization f.apiKey

/-- Concrete stand-in for the platform primitive `JSON.parse`, restricted to
the non-negative integer fragment of JSON: succeeds exactly on a non-empty
digit string with no redundant leading zero. Used only to evaluate concrete
response traces; the general theorems hold for every parser. -/
def jsonParseInt (s : Str) : Option Int :=
  if s.isEmpty then none
  else if !s.all (fun ch => decide ('0' ≤ ch) && decide (ch ≤ '9')) then none
  else if decide (s.head? = some '0') && decide (s.length ≠ 1) then none
  else some (Int.ofNat (s.foldl (fun acc ch => 10 * acc + (ch.toNat - '0'.toNat)) 0))

/-! ## Theorems -/

/-- Claim C1: `wasSuccessful()` on an envelope whose `statusCode` is the number
`c` returns true iff `200 ≤ c ≤ 299` and the `exception` field is `null`, for
every status code `c` (3xx redirects and the synthetic transport 500
included). -/
theorem wasSuccessful_iff_2xx_and_no_exception (cr : ClientResponse) (c : Int)
    (h : cr.statusCode = some c) :
    cr.wasSuccessful = true ↔ (200 ≤ c ∧ c ≤ 299 ∧ cr.exception = none) := by
  simp [ClientResponse.wasSuccessful, h, jsToNumber, and_assoc]

/-- Claim C1 witness: the iff evaluated on a concrete envelope with status 302
and no exception — not successful because 302 is outside [200, 299]. -/
theorem wasSuccessful_iff_witness :
    ({ statusCode := some 302, errorResponse := none, successResponse := none,
       exception := none : ClientResponse }).wasSuccessful = true ↔
      (200 ≤ (302 : Int) ∧ (302 : Int) ≤ 299 ∧
        ({ statusCode := some 302, errorResponse := none, successResponse := none,
           exception := none : ClientResponse }).exception = none) :=
  wasSuccessful_iff_2xx_and_no_exception
    { statusCode := some 302, errorResponse := none, successResponse := none,
      exception := none } 302 rfl

/-- Claim C10: a freshly constructed `ClientResponse` has every field `null`,
and `wasSuccessful()` on it returns false (the `null` status coerces to `0` in
the range check), so an envelope is never classified successful before a 2xx
status has been recorded. -/
theorem newClientResponse_not_successful :
    newClientResponse.statusCode = none ∧ newClientResponse.errorResponse = none ∧
      newClientResponse.successResponse = none ∧ newClientResponse.exception = none ∧
      newClientResponse.wasSuccessful = false := by
  refine ⟨rfl, rfl, rfl, rfl, ?_⟩
  decide

/-- Claim C2: the facade's generic completion handler applied to any completed
envelope either resolves with exactly that envelope (when `wasSuccessful()` is
true) or rejects with exactly that envelope (when it is false) — one of the two
always happens, so no outcome is swallowed and the envelope (status code and
populated body included) is preserved. -/
theorem responseHandler_resolves_iff_successful {α : Type}
    (resolve reject : ClientResponse → α) (r : ClientResponse) :
    (r.wasSuccessful = true ∧
        FusionAuthClient.responseHandler resolve reject r = resolve r) ∨
      (r.wasSuccessful = false ∧
        FusionAuthClient.responseHandler resolve reject r = reject r) := by
  by_cases h : r.wasSuccessful = true
  · exact Or.inl ⟨h, by simp [FusionAuthClient.responseHandler, h]⟩
  · refine Or.inr ⟨by simpa using h, ?_⟩
    simp [FusionAuthClient.responseHandler, h]

/-- Claim C4: on a transport-level failure (no response received), the
request-level error listener invokes the completion handler with the envelope
whose `statusCode` is forced to the sentinel 500, whose `exception` records the
error, whose bodies are absent, and on which `wasSuccessful()` is false; the
path is a total function, so nothing is thrown from the call itself. -/
theorem requestError_forces_500_and_fails {α : Type} (handler : ClientResponse → α)
    (e : String) :
    requestErrorPath handler e = handler (requestErrorEnvelope e) ∧
      (requestErrorEnvelope e).statusCode = some 500 ∧
      (requestErrorEnvelope e).exception = some e ∧
      (requestErrorEnvelope e).successResponse = none ∧
      (requestErrorEnvelope e).errorResponse = none ∧
      (requestErrorEnvelope e).wasSuccessful = false := by
  refine ⟨rfl, rfl, rfl, rfl, rfl, ?_⟩
  simp [ClientResponse.wasSuccessful, requestErrorEnvelope, newClientResponse]

/-- Writing a property then reading the same key yields the written value. -/
theorem getProp_setProp {β : Type} (ps : List (String × β)) (k : String) (v : β) :
    getProp (setProp ps k v) k = some v := by
  induction ps with
  | nil => simp [setProp, getProp]
  | cons p rest ih =>
      obtain ⟨a, b⟩ := p
      by_cases h : a = k
      · simp [setProp, getProp, h]
      · simp [setProp, getProp, h, ih]

/-- Claim C3: `_startAnonymous()` yields a fresh builder whose URL is the
facade's stored host, carrying the `X-FusionAuth-TenantId` header exactly when
`tenantId` is neither `null` nor `undefined` (with that value), and no
`Authorization` header; `_start()` is the same builder with `Authorization`
additionally set to the stored `apiKey`. -/
theorem startAnonymous_and_start_scoping (f : FusionAuthClient) :
    f.startAnonymous.restUrl = .val f.host ∧
      getProp f.startAnonymous.headers "X-FusionAuth-TenantId" = f.tenantId.toOption ∧
      getProp f.startAnonymous.headers "Authorization" = none ∧
      f.startAnonymous.parameters = none ∧ f.startAnonymous.method = none ∧
      f.startAnonymous.body = none ∧
      f.start = f.startAnonymous.authorization f.apiKey ∧
      f.start.restUrl = .val f.host ∧
      getProp f.start.headers "X-FusionAuth-TenantId" = f.tenantId.toOption ∧
      getProp f.start.headers "Authorization" = some f.apiKey := by
  cases h : f.tenantId <;>
    simp +decide [FusionAuthClient.start, FusionAuthClient.startAnonymous, h,
      RESTClient.authorization, RESTClient.header, RESTClient.setUrl, newRESTClient,
      setProp, getProp, JsNullable.toOption]

/-- Claim C7: adding a query parameter with a `null`/`undefined` value leaves
the builder unchanged (so the name is never added to the final query string);
a composite value on a fresh builder serializes as one repeated `name=value`
pair per element, in order; and a further scalar add on a builder already
holding values for `name` appends to that value list rather than
overwriting. -/
theorem urlParameter_null_composite_accumulate (c c2 : RESTClient)
    (name n2 v v1 v2 : String) (ps : List (String × List String)) (vs : List String)
    (h1 : c.parameters = some ps) (h2 : getProp ps name = some vs) :
    c2.urlParameter n2 .null = c2 ∧ c2.urlParameter n2 .undef = c2 ∧
      (newRESTClient.urlParameter n2 .null).parameters = none ∧
      stringifyPairs
          ((newRESTClient.urlParameter name (.val (.composite [v1, v2]))).parameters.getD [])
        = [(name, v1), (name, v2)] ∧
      (c.urlParameter name (.val (.scalar v))).parameters
        = some (setProp ps name (vs ++ [v])) ∧
      getProp ((c.urlParameter name (.val (.scalar v))).parameters.getD []) name
        = some (vs ++ [v]) := by
  refine ⟨rfl, rfl, rfl, ?_, ?_, ?_⟩
  · simp [RESTClient.urlParameter, newRESTClient, getProp, setProp, stringifyPairs]
  · simp [RESTClient.urlParameter, h1, h2]
  · simp [RESTClient.urlParameter, h1, h2, getProp_setProp]

/-- Claim C7 witness: the theorem evaluated on a concrete builder that already
holds `k = ["x"]`: a null add is a no-op, `k=[a,b]` composite on a fresh
builder gives the two pairs in order, and a scalar add appends `"y"`. -/
theorem urlParameter_witness :
    ({ newRESTClient with parameters := some [("k", ["x"])] } : RESTClient).urlParameter
            "q" .null
          = { newRESTClient with parameters := some [("k", ["x"])] } ∧
      ({ newRESTClient with parameters := some [("k", ["x"])] } : RESTClient).urlParameter
            "q" .undef
          = { newRESTClient with parameters := some [("k", ["x"])] } ∧
      (newRESTClient.urlParameter "q" .null).parameters = none ∧
      stringifyPairs
          ((newRESTClient.urlParameter "k" (.val (.composite ["a", "b"]))).parameters.getD [])
        = [("k", "a"), ("k", "b")] ∧
      (({ newRESTClient with parameters := some [("k", ["x"])] } : RESTClient).urlParameter
            "k" (.val (.scalar "y"))).parameters
        = some (setProp [("k", ["x"])] "k" (["x"] ++ ["y"])) ∧
      getProp
          ((({ newRESTClient with parameters := some [("k", ["x"])] } : RESTClient).urlParameter
              "k" (.val (.scalar "y"))).parameters.getD []) "k"
        = some (["x"] ++ ["y"]) :=
  urlParameter_null_composite_accumulate
    { newRESTClient with parameters := some [("k", ["x"])] }
    { newRESTClient with parameters := some [("k", ["x"])] }
    "k" "q" "y" "a" "b" [("k", ["x"])] ["x"] rfl (by decide)

/-- `wasSuccessful` of an envelope with a recorded numeric status and no
exception reduces to the 2xx range check. -/
theorem wasSuccessful_eq_range_check (cr : ClientResponse) (c : Int)
    (h : cr.statusCode = some c) (he : cr.exception = none) :
    cr.wasSuccessful = (decide (200 ≤ c) && decide (c ≤ 299)) := by
  simp [ClientResponse.wasSuccessful, h, he, jsToNumber]

/-- Processing only `data` events keeps the status code and the absence of an
exception, never touches `errorResponse` for a 2xx status, and never touches
`successResponse` for a non-2xx status. -/
theorem runRespEvents_data_invariant (parse : Str → Option Int) (status : Int)
    (chunks : List Str) :
    ∀ cr : ClientResponse, cr.statusCode = some status → cr.exception = none →
      (runRespEvents parse cr (chunks.map .dataEv)).statusCode = some status ∧
        (runRespEvents parse cr (chunks.map .dataEv)).exception = none ∧
        (200 ≤ status ∧ status ≤ 299 →
          (runRespEvents parse cr (chunks.map .dataEv)).errorResponse = cr.errorResponse) ∧
        (¬(200 ≤ status ∧ status ≤ 299) →
          (runRespEvents parse cr (chunks.map .dataEv)).successResponse
            = cr.successResponse) := by
  induction chunks with
  | nil => intro cr h1 h2; simp [runRespEvents, h1, h2]
  | cons ch rest ih =>
      intro cr h1 h2
      by_cases h : 200 ≤ status ∧ status ≤ 299
      · have hws : cr.wasSuccessful = true := by
          rw [wasSuccessful_eq_range_check cr status h1 h2]
          simp [h.1, h.2]
        have step :
            runRespEvents parse cr ((ch :: rest).map .dataEv)
              = runRespEvents parse { cr with successResponse := some (parseOrRaw parse ch) }
                  (rest.map .dataEv) := by
          simp [runRespEvents, respStep, hws]
        have tail := ih { cr with successResponse := some (parseOrRaw parse ch) }
          (by simpa using h1) (by simpa using h2)
        rw [step]
        exact ⟨tail.1, tail.2.1, fun hh => tail.2.2.1 hh, fun hh => absurd h hh⟩
      · have hws : cr.wasSuccessful = false := by
          rw [wasSuccessful_eq_range_check cr status h1 h2]
          rcases not_and_or.mp h with h' | h' <;> simp [h']
        have step :
            runRespEvents parse cr ((ch :: rest).map .dataEv)
              = runRespEvents parse { cr with errorResponse := some (parseOrRaw parse ch) }
                  (rest.map .dataEv) := by
          simp [runRespEvents, respStep, hws]
        have tail := ih { cr with errorResponse := some (parseOrRaw parse ch) }
          (by simpa using h1) (by simpa using h2)
        rw [step]
        exact ⟨tail.1, tail.2.1, fun hh => absurd hh h, fun hh => tail.2.2.2 hh⟩

/-- Claim C5 counterexample: status 200, a data chunk `"ok"` arrives (stored
into `successResponse`), then a mid-stream transport error fires. The final
envelope has `exception` populated AND `successResponse` still populated — the
claim's "exception populated implies both body fields absent, including
mid-stream" is false on the code. -/
theorem midstream_error_keeps_populated_body :
    (goResponse jsonParseInt 200 [.dataEv ['o', 'k'], .errorEv "boom"]).exception
        = some "boom" ∧
      (goResponse jsonParseInt 200 [.dataEv ['o', 'k'], .errorEv "boom"]).successResponse
        = some (.raw ['o', 'k']) := by
  decide

/-- Claim C5 (amended): for a completed call whose response stream delivered
only data chunks (no mid-stream transport error), at most one of
`successResponse`/`errorResponse` is populated and `exception` is absent; and a
request-level transport failure (no response at all) leaves both body fields
absent. A transport error arriving mid-stream after data was stored does not
clear the already-populated body (see the counterexample). -/
theorem bodies_exclusive_without_midstream_error (parse : Str → Option Int)
    (status : Int) (chunks : List Str) (e : String) :
    ((goResponse parse status (chunks.map .dataEv)).successResponse = none ∨
        (goResponse parse status (chunks.map .dataEv)).errorResponse = none) ∧
      (goResponse parse status (chunks.map .dataEv)).exception = none ∧
      (requestErrorEnvelope e).successResponse = none ∧
      (requestErrorEnvelope e).errorResponse = none := by
  have hinv := runRespEvents_data_invariant parse status chunks
    { newClientResponse with statusCode := some status } rfl rfl
  refine ⟨?_, hinv.2.1, rfl, rfl⟩
  by_cases h : 200 ≤ status ∧ status ≤ 299
  · exact Or.inr (hinv.2.2.1 h)
  · exact Or.inl (hinv.2.2.2 h)

/-- Claim C9 counterexample: a body delivered as the two chunks `"1"` and
`"2"`. Parsing the accumulated bytes `"12"` once at stream end would store the
JSON value 12; the code parses each chunk on arrival and overwrites, storing
the JSON value 2 — so the body is not "accumulated and parsed once the stream
completes". -/
theorem chunks_not_accumulated_before_parse :
    (goResponse jsonParseInt 200 [.dataEv ['1'], .dataEv ['2']]).successResponse
        = some (.json 2) ∧
      parseOrRaw jsonParseInt (['1'] ++ ['2']) = .json 12 ∧
      (BodyVal.json 2 : BodyVal) ≠ .json 12 := by
  decide

/-- Claim C9 (amended): each received chunk is parsed as JSON individually on
arrival — falling back to the raw chunk when parsing fails, with no error ever
raised — and is stored into `successResponse` exactly when the recorded status
code is in [200, 299] (and no exception has been recorded), else into
`errorResponse`; a later chunk overwrites an earlier one, so the final body is
the parsed-or-raw form of the LAST chunk, not of the accumulated bytes. -/
theorem chunk_parsed_individually_last_wins (parse : Str → Option Int)
    (status : Int) (chunks : List Str) (c d : Str) :
    (goResponse parse status ((chunks ++ [c]).map .dataEv)).successResponse
        = (if 200 ≤ status ∧ status ≤ 299 then some (parseOrRaw parse c) else none) ∧
      (goResponse parse status ((chunks ++ [c]).map .dataEv)).errorResponse
        = (if 200 ≤ status ∧ status ≤ 299 then none else some (parseOrRaw parse c)) ∧
      parseOrRaw parse d = ((parse d).map BodyVal.json).getD (.raw d) := by
  have happ :
      goResponse parse status ((chunks ++ [c]).map .dataEv)
        = respStep parse (runRespEvents parse
            { newClientResponse with statusCode := some status } (chunks.map .dataEv))
            (.dataEv c) := by
    rw [goResponse]
    rw [List.map_append]
    generalize { newClientResponse with statusCode := some status } = cr0
    induction chunks generalizing cr0 with
    | nil => simp [runRespEvents]
    | cons ch rest ih =>
        simp only [List.map_cons, List.cons_append, runRespEvents]
        simpa using ih (respStep parse cr0 (.dataEv ch))
  have hinv := runRespEvents_data_invariant parse status chunks
    { newClientResponse with statusCode := some status } rfl rfl
  have hfallback : parseOrRaw parse d = ((parse d).map BodyVal.json).getD (.raw d) := by
    cases hpd : parse d <;> simp [parseOrRaw, hpd]
  by_cases h : 200 ≤ status ∧ status ≤ 299
  · have hws := wasSuccessful_eq_range_check _ status hinv.1 hinv.2.1
    rw [happ]
    refine ⟨?_, ?_, hfallback⟩
    · simp [respStep, hws, h.1, h.2, if_pos h]
    · simp [respStep, hws, h.1, h.2, if_pos h]
      exact hinv.2.2.1 h
  · have hws := wasSuccessful_eq_range_check _ status hinv.1 hinv.2.1
    have hwsf : (runRespEvents parse
        { newClientResponse with statusCode := some status }
        (chunks.map .dataEv)).wasSuccessful = false := by
      rw [hws]
      rcases not_and_or.mp h with h' | h' <;> simp [h']
    rw [happ]
    refine ⟨?_, ?_, hfallback⟩
    · simp [respStep, hwsf, if_neg h]
      exact hinv.2.2.2 h
    · simp [respStep, hwsf, if_neg h]

/-- Decomposition of a list by its last element. -/
theorem getLast?_some_decomp (u : Str) (ch : Char) :
    u.getLast? = some ch → u = u.dropLast ++ [ch] := by
  induction u with
  | nil => intro h; simp at h
  | cons a rest ih =>
      intro h
      cases rest with
      | nil =>
          simp [List.getLast?] at h
          simp [h]
      | cons b t =>
          have h' : (b :: t).getLast? = some ch := by
            simpa [List.getLast?_cons_cons] using h
          have hd := ih h'
          calc a :: b :: t = a :: ((b :: t).dropLast ++ [ch]) := by rw [← hd]
            _ = (a :: b :: t).dropLast ++ [ch] := by simp

/-- Claim C6 counterexample: two concrete calls that do produce a doubled path
separator. Appending segment `"/b"` to URL `"a"` yields `"a//b"` — a `"//"`
occurs in the result though neither the URL nor the segment contained one; and
appending `"b"` to URL `"a//"` also yields `"a//b"`, where the part before the
final separator still ends in `'/'`, so the result does not have exactly one
`'/'` at the join point. -/
theorem urlSegment_double_separator :
    (newRESTClient.setUrl ['a']).urlSegment (.val ['/', 'b'])
        = .ok { newRESTClient with restUrl := .val ['a', '/', '/', 'b'] } ∧
      (∃ s t : Str, s ++ '/' :: '/' :: t = ['a', '/', '/', 'b']) ∧
      (¬ ∃ s t : Str, s ++ '/' :: '/' :: t = ['a']) ∧
      (¬ ∃ s t : Str, s ++ '/' :: '/' :: t = ['/', 'b']) ∧
      (newRESTClient.setUrl ['a', '/', '/']).urlSegment (.val ['b'])
        = .ok { newRESTClient with restUrl := .val ['a', '/', '/', 'b'] } ∧
      ¬ ∃ p : Str, ['a', '/', '/', 'b'] = p ++ '/' :: ['b'] ∧ p.getLast? ≠ some '/' := by
  refine ⟨rfl, ⟨['a'], ['b'], rfl⟩, ?_, ?_, rfl, ?_⟩
  · rintro ⟨s, t, hst⟩
    have := congrArg List.length hst
    simp at this
    omega
  · rintro ⟨s, t, hst⟩
    have hlen := congrArg List.length hst
    simp at hlen
    have hs : s = [] := List.length_eq_zero.mp (by omega)
    have ht : t = [] := List.length_eq_zero.mp (by omega)
    rw [hs, ht] at hst
    simp at hst
  · rintro ⟨p, hp, hlast⟩
    have hp' : p ++ ['/', 'b'] = ['a', '/'] ++ ['/', 'b'] := by
      rw [← hp]
      rfl
    have hpe : p = ['a', '/'] := (List.append_inj' hp' rfl).1
    rw [hpe] at hlast
    exact hlast rfl

/-- Claim C6 (amended): appending a `null`/`undefined` segment leaves the
builder unchanged; for a builder with a current URL `u`, appending a non-null
segment that does not itself begin with `'/'`, when `u` does not already end
with two consecutive `'/'`, yields `p ++ '/' :: seg` where `p` does not end in
`'/'` — exactly one path separator at the join point. (A segment beginning
with `'/'`, or a URL already ending in `"//"`, produces a doubled separator;
see the counterexample.) -/
theorem urlSegment_noop_and_single_separator (c : RESTClient) (u seg : Str)
    (h : c.restUrl = .val u) (hseg : seg.head? ≠ some '/')
    (hu : u.getLast? = some '/' → u.dropLast.getLast? ≠ some '/') :
    c.urlSegment .null = .ok c ∧ c.urlSegment .undef = .ok c ∧
      ∃ p : Str, c.urlSegment (.val seg) = .ok { c with restUrl := .val (p ++ '/' :: seg) } ∧
        p.getLast? ≠ some '/' ∧ seg.head? ≠ some '/' := by
  refine ⟨rfl, rfl, ?_⟩
  by_cases hl : u.getLast? = some '/'
  · refine ⟨u.dropLast, ?_, hu hl, hseg⟩
    have hdecomp := getLast?_some_decomp u '/' hl
    simp only [RESTClient.urlSegment, h, if_pos hl]
    conv_lhs => rw [hdecomp]
    simp
  · refine ⟨u, ?_, hl, hseg⟩
    simp only [RESTClient.urlSegment, h, if_neg hl]
    simp

/-- Claim C6 witness: the amended theorem applied to URL `"a/"` (already ending
in a single separator) and segment `"b"`: a null/undefined append is a no-op
and the join introduces exactly one separator. -/
theorem urlSegment_witness :
    (newRESTClient.setUrl ['a', '/']).urlSegment .null
        = .ok (newRESTClient.setUrl ['a', '/']) ∧
      (newRESTClient.setUrl ['a', '/']).urlSegment .undef
        = .ok (newRESTClient.setUrl ['a', '/']) ∧
      ∃ p : Str, (newRESTClient.setUrl ['a', '/']).urlSegment (.val ['b'])
          = .ok { newRESTClient.setUrl ['a', '/'] with restUrl := .val (p ++ '/' :: ['b']) } ∧
        p.getLast? ≠ some '/' ∧ (['b'] : Str).head? ≠ some '/' :=
  urlSegment_noop_and_single_separator (newRESTClient.setUrl ['a', '/']) ['a', '/'] ['b']
    rfl (by decide) (by decide)

/-- Claim C8: the `null`-URI call is a defensive no-op, and so is a call on a
builder whose `restUrl` is `undefined` (the condition the guard actually
tests); but on a freshly constructed builder — whose URL "has not been set
yet" and is therefore the constructor's `null` — the guard does not fire and
`this.restUrl.charAt(...)` throws a `TypeError`, contradicting the claim. -/
theorem uri_null_noop_but_fresh_builder_throws :
    newRESTClient.restUrl = .null ∧
      newRESTClient.uri .null = .ok newRESTClient ∧
      ({ newRESTClient with restUrl := .undef } : RESTClient).uri (.val ['/', 'a'])
        = .ok { newRESTClient with restUrl := .undef } ∧
      newRESTClient.uri (.val ['/', 'a']) = .error .typeError :=
  ⟨rfl, rfl, rfl, rfl⟩

end FANodeClient
